import Mathlib

/-!
Verification development for the invest_proto_v3 dashboard (`src/script.js`).

The file shallowly embeds the fetch/cache/render pipeline of the script:
  * the normalization performed by `fetchStockData` (line 85-135),
  * the retry loop of `fetchStockData`,
  * the axis-label bucketing of `updateChartUI` (line 188-207),
  * the candlestick projection of `updateChartUI` (line 219-225),
  * the percent display of `updatePriceDisplay` (line 308-324),
  * the slot state machines `updateIndexData`, `handleSearch` and
    `handleChartUpdate` (lines 166-174, 354-457, 460-514).

Prices and quote-array entries are modelled as JavaScript values (`JsVal`:
a rational number, JSON `null`, or `undefined` for out-of-range reads);
timestamps as integers (UNIX seconds).  The DOM and the chart renderer are
treated as the opaque consumers of the values the functions compute; network
transport is an oracle parameter enumerating every attempt behaviour.
-/

set_option maxHeartbeats 1000000

/-- A JavaScript value found in the upstream quote arrays: a finite number,
JSON `null`, or `undefined` (the result of reading past the end of an array).
The source filter `item.c !== null && item.o !== null` (line 110) tests
against `null` only, so `undefined` must stay distinguishable from `null`. -/
inductive JsVal where
  | undef : JsVal
  | null : JsVal
  | num : ℚ → JsVal
deriving DecidableEq, Repr

/-- JavaScript array indexing `xs[i]`: the element when in range, else
`undefined`. -/
def jsIndex (xs : List JsVal) (i : Nat) : JsVal :=
  xs.getD i JsVal.undef

/-- One element of the `validData` array built at line 104-110:
`{ time: t, o: opens[i], h: highs[i], l: lows[i], c: closes[i] }`. -/
structure OhlcItem where
  time : Int
  o : JsVal
  h : JsVal
  l : JsVal
  c : JsVal
deriving DecidableEq, Repr

/-- The `validData` computation of `fetchStockData` (line 104-110): pair the
timestamp array positionally with the four quote arrays, then keep the items
whose `c` and `o` are not `null`. -/
def validData (timestamps : List Int) (opens highs lows closes : List JsVal) :
    List OhlcItem :=
  (timestamps.enum.map fun p =>
      { time := p.2
        o := jsIndex opens p.1
        h := jsIndex highs p.1
        l := jsIndex lows p.1
        c := jsIndex closes p.1 }).filter
    fun item => !(item.c == JsVal.null) && !(item.o == JsVal.null)

/-- The `result.indicators.quote[0]` object (line 96-101); each array may be
absent (`quotes.open || []`). -/
structure RawQuote where
  open_ : Option (List JsVal)
  high : Option (List JsVal)
  low : Option (List JsVal)
  close : Option (List JsVal)
deriving DecidableEq, Repr

/-- The `result.meta` fields read at line 112-116. -/
structure RawMeta where
  regularMarketPrice : ℚ
  chartPreviousClose : ℚ
  shortName : Option String
  longName : Option String
deriving DecidableEq, Repr

/-- The `data.chart.result[0]` object of a response that has the expected
shape (line 93-96); `timestamp` may be absent (`result.timestamp || []`). -/
structure RawResult where
  timestamp : Option (List Int)
  quote : RawQuote
  meta : RawMeta
deriving DecidableEq, Repr

/-- JavaScript `a || b` on a string-or-absent left operand: the left string
when truthy (present and non-empty), else `b`. -/
def jsOrStr : Option String → String → String
  | some s, b => if s = "" then b else s
  | none, b => b

/-- The record returned by a successful `fetchStockData` attempt
(line 118-126). -/
structure Series where
  ohlc : List OhlcItem
  prices : List JsVal
  timestamps : List Int
  currentPrice : ℚ
  prevClose : ℚ
  lastUpdated : Option Int
  name : String
deriving DecidableEq, Repr

/-- The success path of one `fetchStockData` attempt (line 95-126): extract
the arrays, build `validData`, and assemble the returned record. -/
def buildSeries (symbol : String) (res : RawResult) : Series :=
  let timestamps := res.timestamp.getD []
  let opens := res.quote.open_.getD []
  let highs := res.quote.high.getD []
  let lows := res.quote.low.getD []
  let closes := res.quote.close.getD []
  let vd := validData timestamps opens highs lows closes
  { ohlc := vd
    prices := vd.map (·.c)
    timestamps := vd.map (·.time)
    currentPrice := res.meta.regularMarketPrice
    prevClose := res.meta.chartPreviousClose
    lastUpdated := if vd.length > 0 then vd.getLast?.map (·.time) else none
    name := jsOrStr res.meta.shortName (jsOrStr res.meta.longName symbol) }

/-- An exception raised inside the `try` block of one `fetchStockData`
attempt: the explicit `throw new Error('Network response was not ok')`
(line 90, also covering a rejected `fetch`), a rejected `response.json()`
(line 92), or the `TypeError` raised by reading `data.chart.result[0]` /
`result.indicators.quote[0]` on a document without that shape (line 93-96). -/
inductive JsError where
  | networkNotOk : JsError
  | jsonParse : JsError
  | typeError : JsError
deriving DecidableEq, Repr

/-- The behaviour of the transport on one attempt: a raised error, or a
well-shaped document. -/
inductive AttemptOutcome where
  | fails : JsError → AttemptOutcome
  | ok : RawResult → AttemptOutcome
deriving DecidableEq, Repr

/-- Whether an attempt outcome is a well-shaped success. -/
def AttemptOutcome.isOk : AttemptOutcome → Bool
  | .fails _ => false
  | .ok _ => true

/-- The body of the `try` block of one attempt (line 87-126): either an
exception propagating to the `catch`, or the returned series. -/
def attemptBody (symbol : String) : AttemptOutcome → Except JsError Series
  | .fails e => .error e
  | .ok res => .ok (buildSeries symbol res)

/-- Observable trace of one `fetchStockData` call: how many attempts ran, the
delays (ms) awaited between consecutive attempts, and the returned value
(`none` models the `return null` of line 130). -/
structure FetchTrace where
  attempts : Nat
  waits : List Nat
  result : Option Series
deriving DecidableEq, Repr

/-- The `for (let i = 0; i <= retries; i++) { try ... catch ... }` loop of
`fetchStockData` (line 86-134), recursing on the number `k` of remaining
iterations.  The call sites keep the invariant `i + k = retries + 1`; with
`k = 0` the loop has exhausted its iterations.  A caught error at
`i === retries` yields `return null`; otherwise the 500 ms delay (line 132)
runs and the next iteration starts. -/
def fetchGo (symbol : String) (transport : Nat → AttemptOutcome)
    (retries : Nat) : Nat → Nat → FetchTrace
  | _, 0 => { attempts := 0, waits := [], result := none }
  | i, k + 1 =>
    match attemptBody symbol (transport i) with
    | .ok s => { attempts := 1, waits := [], result := some s }
    | .error _ =>
      if i = retries then { attempts := 1, waits := [], result := none }
      else
        let rest := fetchGo symbol transport retries (i + 1) k
        { attempts := rest.attempts + 1
          waits := 500 :: rest.waits
          result := rest.result }

/-- `fetchStockData(symbol, range, interval, retries)` (line 85-135), with the
transport abstracted as an oracle giving each attempt's outcome.  The range
and interval only shape the request URL, not the control flow, so they do not
appear. -/
def fetchStockData (symbol : String) (transport : Nat → AttemptOutcome)
    (retries : Nat) : FetchTrace :=
  fetchGo symbol transport retries 0 (retries + 1)

/-- Decimal digit characters of a natural number, most significant first
(the model of JavaScript number-to-string on a non-negative integer).  The
first argument is fuel, structurally decreasing so that the kernel can
evaluate the function; `fuel = n` always suffices since `n / 10 < n` for
`n ≥ 10`. -/
def natStrGo : Nat → Nat → List Char → List Char
  | 0, n, acc => Nat.digitChar n :: acc
  | fuel + 1, n, acc =>
    if n < 10 then Nat.digitChar n :: acc
    else natStrGo fuel (n / 10) (Nat.digitChar (n % 10) :: acc)

/-- Decimal string of a natural number. -/
def natStr (n : Nat) : String :=
  String.mk (natStrGo n n [])

/-- Decimal string of an integer. -/
def intStr (n : Int) : String :=
  if n < 0 then "-" ++ natStr (-n).toNat else natStr n.toNat

/-- JavaScript `s.padStart(2, '0')`. -/
def pad2 (s : String) : String :=
  if s.length ≥ 2 then s else String.mk (List.replicate (2 - s.length) '0') ++ s

/-- Proleptic-Gregorian civil date `(year, month 1-12, day 1-31)` of a day
count relative to 1970-01-01, the standard era-based conversion; it models
what `new Date` exposes through `getFullYear`/`getMonth`/`getDate`. -/
def civilFromDays (z0 : Int) : Int × Nat × Nat :=
  let z := z0 + 719468
  let era := Int.fdiv z 146097
  let doe := (z - era * 146097).toNat
  let yoe := (doe - doe / 1460 + doe / 36524 - doe / 146096) / 365
  let y := (yoe : Int) + era * 400
  let doy := doe - (365 * yoe + yoe / 4 - yoe / 100)
  let mp := (5 * doy + 2) / 153
  let d := doy - (153 * mp + 2) / 5 + 1
  let m := if mp < 10 then mp + 3 else mp - 9
  (if m ≤ 2 then y + 1 else y, m, d)

/-- The date components the label formatter reads from `new Date(t * 1000)`
(line 190): JavaScript getters work in local wall-clock time, modelled by an
explicit offset `tz` in seconds from UTC.  `month` is 0-based as in
`getMonth`. -/
structure DateParts where
  fullYear : Int
  month : Nat
  date : Nat
  hours : Nat
  minutes : Nat
deriving DecidableEq, Repr

/-- Split a UNIX timestamp (seconds) into the `DateParts` read by the label
formatter, under local-time offset `tz`. -/
def dateFromUnix (tz t : Int) : DateParts :=
  let tl := t + tz
  let days := Int.fdiv tl 86400
  let secs := (Int.fmod tl 86400).toNat
  let ymd := civilFromDays days
  { fullYear := ymd.1
    month := ymd.2.1 - 1
    date := ymd.2.2
    hours := secs / 3600
    minutes := secs % 3600 / 60 }

/-- The `YYYY/MM` label of line 198:
`d.getFullYear() + '/' + (d.getMonth()+1).toString().padStart(2,'0')`. -/
def fmtYYYYMM (tz t : Int) : String :=
  let d := dateFromUnix tz t
  intStr d.fullYear ++ "/" ++ pad2 (natStr (d.month + 1))

/-- The `MM/DD` label of line 202. -/
def fmtMMDD (tz t : Int) : String :=
  let d := dateFromUnix tz t
  pad2 (natStr (d.month + 1)) ++ "/" ++ pad2 (natStr d.date)

/-- The `HH:mm` label of line 206. -/
def fmtHHmm (tz t : Int) : String :=
  let d := dateFromUnix tz t
  pad2 (natStr d.hours) ++ ":" ++ pad2 (natStr d.minutes)

/-- The label mapping of `updateChartUI` (line 188-207): for each timestamp,
when more than one point exists compute the span between the last and first
timestamps and choose `YYYY/MM` for spans over 31536000 s, else `MM/DD` for
spans over `86400 * 2` s, else `HH:mm`; a lone point (or none) falls through
to `HH:mm`. -/
def formatLabels (tz : Int) (timestamps : List Int) : List String :=
  timestamps.map fun t =>
    if timestamps.length > 1 then
      let timeSpan := timestamps.getLastD 0 - timestamps.headD 0
      if timeSpan > 31536000 then fmtYYYYMM tz t
      else if timeSpan > 86400 * 2 then fmtMMDD tz t
      else fmtHHmm tz t
    else fmtHHmm tz t

/-- A JavaScript number as it can arise in the percent computation: finite,
signed infinity, or `NaN`. -/
inductive JsNum where
  | nan : JsNum
  | inf : Bool → JsNum
  | fin : ℚ → JsNum
deriving DecidableEq, Repr

/-- JavaScript division of two finite numbers: division by zero yields
`NaN` for a zero numerator and a signed infinity otherwise. -/
def jsDiv (a b : ℚ) : JsNum :=
  if b = 0 then (if a = 0 then .nan else .inf (0 < a)) else .fin (a / b)

/-- JavaScript multiplication of the quotient by the finite literal `100`
(line 315): infinities and `NaN` absorb. -/
def jsMul100 : JsNum → JsNum
  | .nan => .nan
  | .inf p => .inf p
  | .fin q => .fin (q * 100)

/-- JavaScript `x.toFixed(2)`: `NaN` and infinities print as their names; a
finite value prints a sign, the integer digits, and exactly two fraction
digits of the value rounded to hundredths. -/
def toFixed2 : JsNum → String
  | .nan => "NaN"
  | .inf true => "Infinity"
  | .inf false => "-Infinity"
  | .fin q =>
    let sign := if q < 0 then "-" else ""
    let scaled := (round (|q| * 100) : Int).toNat
    sign ++ natStr (scaled / 100) ++ "." ++
      String.mk [Nat.digitChar (scaled / 10 % 10), Nat.digitChar (scaled % 10)]

/-- The `change-percent` text assembled by `updatePriceDisplay`
(line 314-322): `diff = current - prevClose`,
`percent = (diff / prevClose) * 100`, sign `'+'` when `diff >= 0`, then
`percent.toFixed(2)` and a percent sign. -/
def updatePriceDisplayChange (current prevClose : ℚ) : String :=
  let diff := current - prevClose
  let percent := jsMul100 (jsDiv diff prevClose)
  let sign := if 0 ≤ diff then "+" else ""
  sign ++ toFixed2 percent ++ "%"

/-- The `isPositive` flag of `updatePriceDisplay` (line 316), driving the
`text-up`/`text-down` classes. -/
def displayIsPositive (current prevClose : ℚ) : Bool :=
  decide (0 ≤ current - prevClose)

/-- The `isPositive` flag of `updateChartUI` (line 184):
`currentPrice >= prevClose` picks the up colour. -/
def chartIsPositive (currentPrice prevClose : ℚ) : Bool :=
  decide (prevClose ≤ currentPrice)

/-- One element of the `ohlcData` array handed to the candlestick renderer
(line 219-225): `{ x: item.time * 1000, o, h, l, c }`. -/
structure CandleItem where
  x : Int
  o : JsVal
  h : JsVal
  l : JsVal
  c : JsVal
deriving DecidableEq, Repr

/-- The candlestick projection of `updateChartUI` (line 219-225). -/
def ohlcData (data : Series) : List CandleItem :=
  data.ohlc.map fun item => ⟨item.time * 1000, item.o, item.h, item.l, item.c⟩

/-- JavaScript truthiness of a string-valued argument that may be absent
(`undefined`/`null` modelled as `none`): truthy iff present and non-empty. -/
def jsTruthy : Option String → Bool
  | none => false
  | some s => !(s == "")

/-- One entry of the `indices` array (line 74-79) together with the
`lastData` cache field written by `updateIndexData` (line 170) and the
mutations of `handleChartUpdate` (line 475-481).  `range` and `interval` are
string-or-undefined because `handleChartUpdate` assigns the raw arguments. -/
structure IndexState where
  symbol : String
  range : Option String
  interval : Option String
  type' : String
  lastData : Option Series
deriving DecidableEq, Repr

/-- `updateIndexData` (line 166-174): on a null fetch result return without
touching the slot; otherwise cache the data and render it with the slot's
current type.  The second component is the `(data, type)` pair handed to
`updateChartUI`, `none` when no render happens. -/
def updateIndexData (st : IndexState) (fetchResult : Option Series) :
    IndexState × Option (Series × String) :=
  match fetchResult with
  | none => (st, none)
  | some data => ({ st with lastData := some data }, some (data, st.type'))

/-- Result of one `handleChartUpdate` call on a fixed index slot: number of
`fetchStockData` invocations, the slot state after the call, and the
`(data, type)` pair rendered (if any). -/
structure IndexOut where
  fetches : Nat
  state : IndexState
  rendered : Option (Series × String)
deriving DecidableEq, Repr

/-- The fixed-index branch of `handleChartUpdate` (line 471-513): a truthy
`range` overwrites the slot's range and interval, a truthy `type` overwrites
its type; then a truthy `range` always fetches, otherwise a cached series is
reused, otherwise it fetches as a fallback.  `fetchResult` is the oracle for
what a `fetchStockData` call would return. -/
def handleChartUpdateIndex (st : IndexState)
    (range interval ty : Option String) (fetchResult : Option Series) :
    IndexOut :=
  let st1 := if jsTruthy range then { st with range := range, interval := interval } else st
  let st2 := match ty with
    | some t => if t = "" then st1 else { st1 with type' := t }
    | none => st1
  if jsTruthy range then
    match fetchResult with
    | some d => ⟨1, { st2 with lastData := some d }, some (d, st2.type')⟩
    | none => ⟨1, st2, none⟩
  else
    match st2.lastData with
    | some d => ⟨0, st2, some (d, st2.type')⟩
    | none =>
      match fetchResult with
      | some d => ⟨1, { st2 with lastData := some d }, some (d, st2.type')⟩
      | none => ⟨1, st2, none⟩

/-- The cache record written by `handleSearch` (line 422):
`lastFetchedData = { ...data, symbol, range, interval }`. -/
structure CachedSearch where
  data : Series
  symbol : String
  range : String
  interval : String
deriving DecidableEq, Repr

/-- The module-level search state (line 351-353): `currentSearchSymbol`,
`currentChartType` and `lastFetchedData`. -/
structure SearchState where
  currentSearchSymbol : String
  currentChartType : String
  lastFetchedData : Option CachedSearch
deriving DecidableEq, Repr

/-- Whitespace for the JavaScript `trim()` model. -/
def isWhitespaceChar (c : Char) : Bool :=
  c = ' ' || c = '\t' || c = '\n' || c = '\r'

/-- JavaScript `s.trim()`: drop whitespace from both ends.  (The Lean core
`String.trim` walks byte positions by well-founded recursion, which the
kernel cannot evaluate, so the model works on the character list.) -/
def strTrim (s : String) : String :=
  String.mk (((s.data.dropWhile isWhitespaceChar).reverse.dropWhile
    isWhitespaceChar).reverse)

/-- JavaScript `s.toUpperCase()` (over the ASCII range), mapped per
character on the character list for the same evaluability reason. -/
def strToUpper (s : String) : String :=
  String.mk (s.data.map Char.toUpper)

/-- JavaScript `s.includes(c)` for a single character. -/
def strContainsChar (s : String) (c : Char) : Bool :=
  s.data.contains c

/-- The symbol resolution of `handleSearch` (line 360-388): trim and
uppercase the input, fall back to the previously searched symbol when the
input is empty, and append the exchange suffix when one is selected and the
symbol has no dot. -/
def resolveSymbol (inputValue suffix currentSearchSymbol : String) : String :=
  let symbol := strToUpper (strTrim inputValue)
  let symbol := if symbol = "" ∧ currentSearchSymbol ≠ "" then currentSearchSymbol else symbol
  if suffix ≠ "" ∧ ¬(strContainsChar symbol '.') then symbol ++ suffix else symbol

/-- The staleness test of `handleSearch` (line 405-408): fetch unless a
cached entry exists whose symbol, range and interval all equal the request's. -/
def shouldFetchNewData (lastFetchedData : Option CachedSearch)
    (symbol range interval : String) : Bool :=
  !(match lastFetchedData with
    | some d => d.symbol == symbol && d.range == range && d.interval == interval
    | none => false)

/-- Result of one `handleSearch` call: number of `fetchStockData`
invocations, the search state after the call, and the `(series, type)` pair
rendered (if any). -/
structure SearchOut where
  fetches : Nat
  state : SearchState
  rendered : Option (Series × String)
deriving DecidableEq, Repr

/-- `handleSearch(range = '5y', interval = '1mo', chartType = null)`
(line 354-457).  `rangeArg`/`intervalArg`/`chartTypeArg` are `none` when the
caller passes `undefined`, in which case the JavaScript default parameters
apply; `inputValue` and `suffix` are the DOM field values; `fetchResult` is
the oracle for what a `fetchStockData` call would return.  A fetched series
with no prices raises and is caught (line 418-429), leaving the cache alone;
a cache hit renders the cached record without fetching. -/
def handleSearch (st : SearchState)
    (rangeArg intervalArg chartTypeArg : Option String)
    (inputValue suffix : String) (fetchResult : Option Series) : SearchOut :=
  let range := rangeArg.getD "5y"
  let interval := intervalArg.getD "1mo"
  let symbol := resolveSymbol inputValue suffix st.currentSearchSymbol
  let st1 := match chartTypeArg with
    | some t => if t = "" then st else { st with currentChartType := t }
    | none => st
  if symbol = "" then ⟨0, st1, none⟩
  else
    let st2 := { st1 with currentSearchSymbol := symbol }
    if shouldFetchNewData st2.lastFetchedData symbol range interval then
      match fetchResult with
      | none => ⟨1, st2, none⟩
      | some data =>
        if data.prices.length = 0 then ⟨1, st2, none⟩
        else
          ⟨1, { st2 with lastFetchedData := some ⟨data, symbol, range, interval⟩ },
            some (data, st2.currentChartType)⟩
    else
      match st2.lastFetchedData with
      | some d => ⟨0, st2, some (d.data, st2.currentChartType)⟩
      | none => ⟨0, st2, none⟩

/-- JavaScript `a || b` where both operands are string-or-undefined
(line 467-468). -/
def jsOrOpt (a b : Option String) : Option String :=
  match a with
  | some s => if s = "" then b else some s
  | none => b

/-- The search branch of `handleChartUpdate` (line 465-470): fill an absent
range/interval from the cached entry, then delegate to `handleSearch`. -/
def handleChartUpdateSearch (st : SearchState) (inputValue suffix : String)
    (range interval ty : Option String) (fetchResult : Option Series) :
    SearchOut :=
  let nextRange := jsOrOpt range (st.lastFetchedData.map (·.range))
  let nextInterval := jsOrOpt interval (st.lastFetchedData.map (·.interval))
  handleSearch st nextRange nextInterval ty inputValue suffix fetchResult

/-! ## Properties of the retry loop -/

lemma fetchGo_attempts_pos (symbol : String) (transport : Nat → AttemptOutcome)
    (retries i k : Nat) :
    1 ≤ (fetchGo symbol transport retries i (k + 1)).attempts := by
  cases h : attemptBody symbol (transport i) with
  | ok s => simp [fetchGo, h]
  | error e =>
    by_cases hir : i = retries
    · subst hir; simp [fetchGo, h]
    · simp [fetchGo, h, hir]

lemma fetchGo_spec (symbol : String) (transport : Nat → AttemptOutcome)
    (retries : Nat) :
    ∀ k i, i + k = retries + 1 →
      (fetchGo symbol transport retries i k).attempts ≤ k
      ∧ (fetchGo symbol transport retries i k).waits
          = List.replicate ((fetchGo symbol transport retries i k).attempts - 1) 500
      ∧ ((∀ j, i ≤ j → j ≤ retries → (transport j).isOk = false) →
          (fetchGo symbol transport retries i k).attempts = k
          ∧ (fetchGo symbol transport retries i k).result = none) := by
  intro k
  induction k with
  | zero =>
    intro i hk
    refine ⟨by simp [fetchGo], by simp [fetchGo], fun _ => ⟨by simp [fetchGo], by simp [fetchGo]⟩⟩
  | succ k ih =>
    intro i hk
    cases h : attemptBody symbol (transport i) with
    | ok s =>
      refine ⟨by simp [fetchGo, h], by simp [fetchGo, h], fun hall => ?_⟩
      exfalso
      cases ht : transport i with
      | ok r =>
        have hfalse := hall i (Nat.le_refl i) (by omega)
        rw [ht] at hfalse
        simp [AttemptOutcome.isOk] at hfalse
      | fails e => rw [ht] at h; simp [attemptBody] at h
    | error e =>
      by_cases hir : i = retries
      · subst hir
        have hk0 : k = 0 := by omega
        subst hk0
        refine ⟨by simp [fetchGo, h], by simp [fetchGo, h],
          fun _ => ⟨by simp [fetchGo, h], by simp [fetchGo, h]⟩⟩
      · have hklt : 1 ≤ k := by omega
        obtain ⟨ha, hw, hf⟩ := ih (i + 1) (by omega)
        have hpos : 1 ≤ (fetchGo symbol transport retries (i + 1) k).attempts := by
          obtain ⟨k', rfl⟩ : ∃ k', k = k' + 1 := ⟨k - 1, by omega⟩
          exact fetchGo_attempts_pos symbol transport retries (i + 1) k'
        refine ⟨?_, ?_, ?_⟩
        · simp only [fetchGo, h]
          simp [hir]
          omega
        · simp only [fetchGo, h]
          simp only [hir, if_neg (by exact hir)]
          have : (fetchGo symbol transport retries (i + 1) k).attempts + 1 - 1
              = ((fetchGo symbol transport retries (i + 1) k).attempts - 1) + 1 := by omega
          simp [this, List.replicate_succ, hw]
        · intro hall
          obtain ⟨ha', hr'⟩ := hf (fun j hj1 hj2 => hall j (by omega) hj2)
          constructor
          · simp only [fetchGo, h]
            simp [hir, ha']
          · simp only [fetchGo, h]
            simp [hir, hr']

/-- C2: for `maxRetries = n ≥ 0`, `fetchStockData` makes at most `n + 1`
attempts, waits a fixed 500 ms between consecutive attempts (one wait per
extra attempt, no growth), and when every attempt fails it makes exactly
`n + 1` attempts and returns the fetch-error result `null` (in particular,
`n = 1` with a persistently failing transport gives exactly 2 attempts). -/
theorem claim_C2 (symbol : String) (transport : Nat → AttemptOutcome) (n : Nat) :
    (fetchStockData symbol transport n).attempts ≤ n + 1
    ∧ (fetchStockData symbol transport n).waits
        = List.replicate ((fetchStockData symbol transport n).attempts - 1) 500
    ∧ ((∀ j, j ≤ n → (transport j).isOk = false) →
        (fetchStockData symbol transport n).attempts = n + 1
        ∧ (fetchStockData symbol transport n).result = none) := by
  obtain ⟨ha, hw, hf⟩ := fetchGo_spec symbol transport n (n + 1) 0 (by omega)
  exact ⟨ha, hw, fun hall => hf (fun j _ hj => hall j hj)⟩

/-- Witness for C2: a transport failing on every attempt with `maxRetries = 1`
makes exactly 2 attempts, waits once for 500 ms, and returns `null`. -/
theorem claim_C2_witness :
    (fetchStockData "AAPL" (fun _ => .fails .networkNotOk) 1).attempts = 2
    ∧ (fetchStockData "AAPL" (fun _ => .fails .networkNotOk) 1).result = none
    ∧ (fetchStockData "AAPL" (fun _ => .fails .networkNotOk) 1).waits = [500] := by
  have h := claim_C2 "AAPL" (fun _ => .fails .networkNotOk) 1
  have hfail := h.2.2 (fun j _ => rfl)
  refine ⟨hfail.1, hfail.2, ?_⟩
  have hw := h.2.1
  rw [hfail.1] at hw
  simpa using hw

lemma fetchGo_result_none_iff (symbol : String)
    (transport : Nat → AttemptOutcome) (retries : Nat) :
    ∀ k i, i + k = retries + 1 →
      ((fetchGo symbol transport retries i k).result = none ↔
        ∀ j, i ≤ j → j ≤ retries → (transport j).isOk = false) := by
  intro k
  induction k with
  | zero =>
    intro i hk
    constructor
    · intro _ j h1 h2
      omega
    · intro _
      simp [fetchGo]
  | succ k ih =>
    intro i hk
    cases h : attemptBody symbol (transport i) with
    | ok s =>
      have hok : ∃ res, transport i = AttemptOutcome.ok res := by
        cases ht : transport i with
        | ok r => exact ⟨r, rfl⟩
        | fails e => rw [ht] at h; simp [attemptBody] at h
      constructor
      · intro hnone
        simp [fetchGo, h] at hnone
      · intro hall
        exfalso
        obtain ⟨res, hres⟩ := hok
        have := hall i (Nat.le_refl i) (by omega)
        rw [hres] at this
        simp [AttemptOutcome.isOk] at this
    | error e =>
      have hfails : ∃ e', transport i = AttemptOutcome.fails e' := by
        cases ht : transport i with
        | ok r => rw [ht] at h; simp [attemptBody] at h
        | fails e' => exact ⟨e', rfl⟩
      by_cases hir : i = retries
      · subst hir
        have hk0 : k = 0 := by omega
        subst hk0
        constructor
        · intro _ j h1 h2
          have hj : j = i := by omega
          subst hj
          obtain ⟨e', he'⟩ := hfails
          rw [he']
          rfl
        · intro _
          simp [fetchGo, h]
      · have hrest := ih (i + 1) (by omega)
        have hstep : (fetchGo symbol transport retries i (k + 1)).result
            = (fetchGo symbol transport retries (i + 1) k).result := by
          simp [fetchGo, h, hir]
        rw [hstep, hrest]
        constructor
        · intro hall j h1 h2
          rcases Nat.eq_or_lt_of_le h1 with heq | hlt
          · subst heq
            obtain ⟨e', he'⟩ := hfails
            rw [he']
            rfl
          · exact hall j (by omega) h2
        · intro hall j h1 h2
          exact hall j (by omega) h2

lemma fetchGo_result_cases (symbol : String)
    (transport : Nat → AttemptOutcome) (retries : Nat) :
    ∀ k i, i + k = retries + 1 →
      (fetchGo symbol transport retries i k).result = none
      ∨ ∃ j res, j ≤ retries ∧ transport j = AttemptOutcome.ok res
          ∧ (fetchGo symbol transport retries i k).result
              = some (buildSeries symbol res) := by
  intro k
  induction k with
  | zero =>
    intro i hk
    exact Or.inl (by simp [fetchGo])
  | succ k ih =>
    intro i hk
    cases h : attemptBody symbol (transport i) with
    | ok s =>
      obtain ⟨res, hres⟩ : ∃ res, transport i = AttemptOutcome.ok res := by
        cases ht : transport i with
        | ok r => exact ⟨r, rfl⟩
        | fails e => rw [ht] at h; simp [attemptBody] at h
      refine Or.inr ⟨i, res, by omega, hres, ?_⟩
      have hs : s = buildSeries symbol res := by
        rw [hres] at h
        simpa [attemptBody] using h.symm
      simp [fetchGo, h, hs]
    | error e =>
      by_cases hir : i = retries
      · subst hir
        have hk0 : k = 0 := by omega
        subst hk0
        exact Or.inl (by simp [fetchGo, h])
      · have hstep : (fetchGo symbol transport retries i (k + 1)).result
            = (fetchGo symbol transport retries (i + 1) k).result := by
          simp [fetchGo, h, hir]
        rw [hstep]
        exact ih (i + 1) (by omega)

/-- C9: `fetchStockData` never lets an exception reach its caller: over every
transport behaviour (network failure, non-ok status, malformed JSON, missing
fields — all the `AttemptOutcome.fails` cases) and every `maxRetries ≥ 0` it
returns either `null` — exactly when every attempt within the budget failed —
or a normalized series built from some well-shaped response, so a caller can
detect failure by a null check alone. -/
theorem claim_C9 (symbol : String) (transport : Nat → AttemptOutcome) (n : Nat) :
    ((fetchStockData symbol transport n).result = none ↔
      ∀ j, j ≤ n → (transport j).isOk = false)
    ∧ ((fetchStockData symbol transport n).result = none
       ∨ ∃ j res, j ≤ n ∧ transport j = AttemptOutcome.ok res
           ∧ (fetchStockData symbol transport n).result
               = some (buildSeries symbol res)) := by
  constructor
  · have h := fetchGo_result_none_iff symbol transport n (n + 1) 0 (by omega)
    rw [fetchStockData, h]
    constructor
    · intro hall j hj
      exact hall j (Nat.zero_le j) hj
    · intro hall j _ hj
      exact hall j hj
  · exact fetchGo_result_cases symbol transport n (n + 1) 0 (by omega)

/-- C4 counterexample: the claim says a response lacking the expected JSON
shape is not retried, but with `maxRetries = 1` and a transport whose every
response is well-formed-HTTP yet misses `chart.result[0]` (a `TypeError`
inside the `try`), the code makes 2 attempts — the shape failure was
retried. -/
theorem claim_C4_cex :
    (fetchStockData "AAPL" (fun _ => .fails .typeError) 1).attempts = 2
    ∧ (fetchStockData "AAPL" (fun _ => .fails .typeError) 1).waits = [500] := by
  constructor <;> rfl

/-- C4 (amended): the `catch` of `fetchStockData` does not discriminate
between error kinds: every failing attempt — network error, JSON parse
failure, or missing `chart.result[0]` / `indicators.quote[0]` shape — is
retried within the fixed budget, exhausting all `n + 1` attempts when the
failure persists; only a successful attempt stops the loop, and a well-shaped
response with zero usable points is such a success (returned at the first
attempt, never retried). -/
theorem claim_C4 :
    (∀ (symbol : String) (e : JsError) (n : Nat),
      (fetchStockData symbol (fun _ => .fails e) n).attempts = n + 1
      ∧ (fetchStockData symbol (fun _ => .fails e) n).result = none)
    ∧ (∀ (symbol : String) (transport : Nat → AttemptOutcome) (res : RawResult)
        (n : Nat), transport 0 = .ok res →
      (fetchStockData symbol transport n).attempts = 1
      ∧ (fetchStockData symbol transport n).result
          = some (buildSeries symbol res)) := by
  constructor
  · intro symbol e n
    exact (fetchGo_spec symbol (fun _ => .fails e) n (n + 1) 0 (by omega)).2.2
      (fun j _ _ => rfl)
  · intro symbol transport res n h
    constructor <;> simp [fetchStockData, fetchGo, attemptBody, h]

/-- Witness for C4 (amended): a response with the expected shape but zero
points is returned at the first attempt even with retries available, while a
persistent parse failure with `maxRetries = 2` exhausts all 3 attempts. -/
theorem claim_C4_witness :
    (fetchStockData "AAPL"
      (fun _ => AttemptOutcome.ok ⟨none, ⟨none, none, none, none⟩, ⟨0, 0, none, none⟩⟩)
      1).attempts = 1
    ∧ (fetchStockData "AAPL" (fun _ => .fails .jsonParse) 2).attempts = 3 := by
  constructor
  · exact (claim_C4.2 "AAPL" _ ⟨none, ⟨none, none, none, none⟩, ⟨0, 0, none, none⟩⟩ 1 rfl).1
  · exact (claim_C4.1 "AAPL" .jsonParse 2).1

/-! ## Properties of the label formatter -/

lemma span_ne_zero_length (ts : List Int)
    (h : ts.getLastD 0 - ts.headD 0 ≠ 0) : 1 < ts.length := by
  match ts with
  | [] => simp [List.getLastD, List.headD] at h
  | [a] => simp [List.getLastD, List.headD] at h
  | a :: b :: rest => simp

/-- C3: each point yields exactly one label; with
`span = last timestamp - first timestamp` in seconds, every label is
`YYYY/MM` when `span > 31536000`, every label is `MM/DD` when
`31536000 ≥ span > 172800` (so span exactly 31536000 gives `MM/DD`), and
every label is `HH:mm` when `span ≤ 172800` — which covers span exactly
172800 as well as the empty and single-point sequences (their span is 0). -/
theorem claim_C3 (tz : Int) (ts : List Int) :
    (formatLabels tz ts).length = ts.length
    ∧ (ts.getLastD 0 - ts.headD 0 > 31536000 →
        formatLabels tz ts = ts.map (fmtYYYYMM tz))
    ∧ (ts.getLastD 0 - ts.headD 0 ≤ 31536000 →
        ts.getLastD 0 - ts.headD 0 > 172800 →
        formatLabels tz ts = ts.map (fmtMMDD tz))
    ∧ (ts.getLastD 0 - ts.headD 0 ≤ 172800 →
        formatLabels tz ts = ts.map (fmtHHmm tz)) := by
  refine ⟨List.length_map _ _, ?_, ?_, ?_⟩
  · intro h
    have hlen : 1 < ts.length := span_ne_zero_length ts (by omega)
    unfold formatLabels
    refine List.map_congr_left (fun t _ => ?_)
    rw [if_pos hlen, if_pos h]
  · intro h1 h2
    have hlen : 1 < ts.length := span_ne_zero_length ts (by omega)
    unfold formatLabels
    refine List.map_congr_left (fun t _ => ?_)
    rw [if_pos hlen, if_neg (by omega), if_pos (by omega)]
  · intro h
    unfold formatLabels
    refine List.map_congr_left (fun t _ => ?_)
    by_cases hlen : 1 < ts.length
    · rw [if_pos hlen, if_neg (by omega), if_neg (by omega)]
    · rw [if_neg hlen]

/-- Witness for C3: a 400-day span formats as `YYYY/MM`; span exactly
31536000 as `MM/DD`; span exactly 172800 and a single point as `HH:mm`. -/
theorem claim_C3_witness :
    formatLabels 0 [0, 34560000] = ["1970/01", "1971/02"]
    ∧ formatLabels 0 [0, 31536000] = ["01/01", "01/01"]
    ∧ formatLabels 0 [0, 172800] = ["00:00", "00:00"]
    ∧ formatLabels 0 [0] = ["00:00"] := by
  refine ⟨?_, ?_, ?_, ?_⟩
  · have h := (claim_C3 0 [0, 34560000]).2.1 (by decide)
    rw [h]
    decide
  · have h := (claim_C3 0 [0, 31536000]).2.2.1 (by decide) (by decide)
    rw [h]
    decide
  · have h := (claim_C3 0 [0, 172800]).2.2.2 (by decide)
    rw [h]
    decide
  · have h := (claim_C3 0 [0]).2.2.2 (by decide)
    rw [h]
    decide

/-! ## Properties of the percent display -/

lemma natStrGo_head (fuel : Nat) :
    ∀ n acc, n ≤ fuel →
      ∃ m rest, m < 10 ∧ natStrGo fuel n acc = Nat.digitChar m :: rest := by
  induction fuel with
  | zero =>
    intro n acc hn
    have hn0 : n = 0 := by omega
    subst hn0
    exact ⟨0, acc, by omega, rfl⟩
  | succ fuel ih =>
    intro n acc hn
    by_cases h : n < 10
    · exact ⟨n, acc, h, by simp [natStrGo, h]⟩
    · have hdiv : n / 10 ≤ fuel := by
        have : n / 10 < n := Nat.div_lt_self (by omega) (by omega)
        omega
      obtain ⟨m, rest, hm, heq⟩ := ih (n / 10) (Nat.digitChar (n % 10) :: acc) hdiv
      exact ⟨m, rest, hm, by simp [natStrGo, h, heq]⟩

lemma natStr_head (n : Nat) :
    ∃ m rest, m < 10 ∧ (natStr n).data = Nat.digitChar m :: rest :=
  natStrGo_head n n [] (Nat.le_refl n)

lemma digitChar_ne_plus {m : Nat} (hm : m < 10) : Nat.digitChar m ≠ '+' := by
  revert hm
  revert m
  decide

lemma toFixed2_head (x : JsNum) : (toFixed2 x).data.head? ≠ some '+' := by
  cases x with
  | nan => decide
  | inf p => cases p <;> decide
  | fin q =>
    by_cases hq : q < 0
    · simp [toFixed2, hq, String.data_append]
    · obtain ⟨m, rest, hm, hdata⟩ := natStr_head ((round (|q| * 100) : Int).toNat / 100)
      simp [toFixed2, hq, String.data_append, hdata]
      exact digitChar_ne_plus hm

lemma toFixed2_fin_shape (q : ℚ) :
    toFixed2 (.fin q)
      = ((if q < 0 then "-" else "")
          ++ natStr ((round (|q| * 100) : Int).toNat / 100)) ++ "." ++
        String.mk [Nat.digitChar ((round (|q| * 100) : Int).toNat / 10 % 10),
          Nat.digitChar ((round (|q| * 100) : Int).toNat % 10)] := by
  simp [toFixed2, String.append_assoc]

/-- C8: the change display computes `diff = current - prevClose` and
`percent = diff / prevClose * 100`; the rendered text carries a leading `'+'`
exactly when `diff ≥ 0`; with a non-zero `prevClose` the text always shows
exactly two decimal places; `current = prevClose = 100` renders `+0.00%` and
counts as the positive direction in both the display classes and the chart
colour; and a zero `prevClose` yields the JavaScript sentinel
(`Infinity`/`NaN`) rendered as text rather than a crash or a special case. -/
theorem claim_C8 :
    (∀ current prevClose : ℚ, 0 ≤ current - prevClose →
      ∃ rest, updatePriceDisplayChange current prevClose = "+" ++ rest)
    ∧ (∀ current prevClose : ℚ, current - prevClose < 0 →
      ∀ rest, updatePriceDisplayChange current prevClose ≠ "+" ++ rest)
    ∧ (∀ current prevClose : ℚ, prevClose ≠ 0 →
      ∃ pre frac, updatePriceDisplayChange current prevClose
          = pre ++ "." ++ frac ++ "%" ∧ frac.length = 2)
    ∧ updatePriceDisplayChange 100 100 = "+0.00%"
    ∧ displayIsPositive 100 100 = true
    ∧ chartIsPositive 100 100 = true
    ∧ (∀ current : ℚ, updatePriceDisplayChange current 0 =
        if 0 < current then "+Infinity%"
        else if current < 0 then "-Infinity%" else "+NaN%") := by
  have htf0 : toFixed2 (JsNum.fin 0) = "0.00" := by
    simp only [toFixed2, abs_zero, zero_mul, round_zero, Int.toNat_zero]
    rw [if_neg (lt_irrefl (0 : ℚ))]
    rfl
  refine ⟨?_, ?_, ?_, ?_, ?_, ?_, ?_⟩
  · intro current prevClose h
    exact ⟨toFixed2 (jsMul100 (jsDiv (current - prevClose) prevClose)) ++ "%",
      by simp [updatePriceDisplayChange, h, String.append_assoc]⟩
  · intro current prevClose h rest heq
    have hd := congrArg String.data heq
    simp only [updatePriceDisplayChange, if_neg (not_le.mpr h),
      String.empty_append, String.data_append] at hd
    have hhead := toFixed2_head (jsMul100 (jsDiv (current - prevClose) prevClose))
    cases hcd : (toFixed2 (jsMul100 (jsDiv (current - prevClose) prevClose))).data with
    | nil =>
      rw [hcd] at hd
      simp only [List.nil_append, List.singleton_append, List.cons.injEq] at hd
      exact absurd hd.1 (by decide)
    | cons c tl =>
      rw [hcd] at hd hhead
      simp only [List.head?, ne_eq, Option.some.injEq] at hhead
      simp only [List.cons_append, List.cons.injEq] at hd
      exact hhead hd.1
  · intro current prevClose hpc
    have hq : jsMul100 (jsDiv (current - prevClose) prevClose)
        = JsNum.fin ((current - prevClose) / prevClose * 100) := by
      simp [jsDiv, jsMul100, hpc]
    refine ⟨(if 0 ≤ current - prevClose then "+" else "")
        ++ ((if (current - prevClose) / prevClose * 100 < 0 then "-" else "")
          ++ natStr ((round (|(current - prevClose) / prevClose * 100| * 100) : Int).toNat / 100)),
      String.mk [Nat.digitChar ((round (|(current - prevClose) / prevClose * 100| * 100) : Int).toNat / 10 % 10),
        Nat.digitChar ((round (|(current - prevClose) / prevClose * 100| * 100) : Int).toNat % 10)],
      ?_, rfl⟩
    simp only [updatePriceDisplayChange]
    rw [hq, toFixed2_fin_shape]
    simp [String.append_assoc]
  · have hkey : jsMul100 (jsDiv ((100 : ℚ) - 100) 100) = JsNum.fin 0 := by
      norm_num [jsDiv, jsMul100]
    simp only [updatePriceDisplayChange]
    rw [hkey, if_pos (by norm_num : (0 : ℚ) ≤ 100 - 100), htf0]
    rfl
  · unfold displayIsPositive
    rw [decide_eq_true_eq]
    norm_num
  · unfold chartIsPositive
    rw [decide_eq_true_eq]
  · intro current
    rcases lt_trichotomy current 0 with h | h | h
    · rw [if_neg (by linarith : ¬ (0 : ℚ) < current), if_pos h]
      have hkey : jsMul100 (jsDiv (current - 0) 0) = JsNum.inf false := by
        simp [jsDiv, jsMul100, sub_zero, h.ne, lt_asymm h]
      simp only [updatePriceDisplayChange]
      rw [hkey, if_neg (by simpa using not_le.mpr h)]
      rfl
    · subst h
      rw [if_neg (lt_irrefl (0 : ℚ)), if_neg (lt_irrefl (0 : ℚ))]
      have hkey : jsMul100 (jsDiv ((0 : ℚ) - 0) 0) = JsNum.nan := by
        simp [jsDiv, jsMul100]
      simp only [updatePriceDisplayChange]
      rw [hkey, if_pos (by norm_num : (0 : ℚ) ≤ 0 - 0)]
      rfl
    · rw [if_pos h]
      have hkey : jsMul100 (jsDiv (current - 0) 0) = JsNum.inf true := by
        simp [jsDiv, jsMul100, sub_zero, h.ne', h]
      simp only [updatePriceDisplayChange]
      rw [hkey, if_pos (by simpa using h.le)]
      rfl

/-- Witness for C8: `current = 105, prevClose = 100` renders a `'+'`-prefixed
text with exactly two decimal places. -/
theorem claim_C8_witness :
    (∃ rest, updatePriceDisplayChange 105 100 = "+" ++ rest)
    ∧ (∃ pre frac, updatePriceDisplayChange 105 100
        = pre ++ "." ++ frac ++ "%" ∧ frac.length = 2) :=
  ⟨claim_C8.1 105 100 (by norm_num),
   claim_C8.2.2.1 105 100 (by norm_num)⟩

/-! ## Properties of normalization -/

lemma validData_map_time_sublist (ts : List Int) (o h l c : List JsVal) :
    ((validData ts o h l c).map (·.time)).Sublist ts := by
  unfold validData
  have h1 := (List.filter_sublist (l := ts.enum.map fun p =>
      ({ time := p.2, o := jsIndex o p.1, h := jsIndex h p.1,
         l := jsIndex l p.1, c := jsIndex c p.1 } : OhlcItem))
    (p := fun item => !(item.c == JsVal.null) && !(item.o == JsVal.null))).map
    (f := (·.time))
  rw [List.map_map] at h1
  have h2 : ((fun item : OhlcItem => item.time) ∘ fun p : Nat × Int =>
      ({ time := p.2, o := jsIndex o p.1, h := jsIndex h p.1,
         l := jsIndex l p.1, c := jsIndex c p.1 } : OhlcItem)) = Prod.snd := rfl
  rw [h2, List.enum_map_snd] at h1
  exact h1

/-- C5 counterexample: normalization never reorders, so an upstream document
whose timestamp array is not ascending yields a series whose `timestamps` are
not ascending — the claim's "for every upstream input arrays" fails. -/
theorem claim_C5_cex :
    (buildSeries "TEST"
        ⟨some [2, 1],
         ⟨some [JsVal.num 1, JsVal.num 1], some [JsVal.num 1, JsVal.num 1],
          some [JsVal.num 1, JsVal.num 1], some [JsVal.num 1, JsVal.num 1]⟩,
         ⟨1, 1, none, none⟩⟩).timestamps = [2, 1]
    ∧ ¬ List.Pairwise (· ≤ ·)
        (buildSeries "TEST"
          ⟨some [2, 1],
           ⟨some [JsVal.num 1, JsVal.num 1], some [JsVal.num 1, JsVal.num 1],
            some [JsVal.num 1, JsVal.num 1], some [JsVal.num 1, JsVal.num 1]⟩,
           ⟨1, 1, none, none⟩⟩).timestamps := by
  have h : (buildSeries "TEST"
      ⟨some [2, 1],
       ⟨some [JsVal.num 1, JsVal.num 1], some [JsVal.num 1, JsVal.num 1],
        some [JsVal.num 1, JsVal.num 1], some [JsVal.num 1, JsVal.num 1]⟩,
       ⟨1, 1, none, none⟩⟩).timestamps = [2, 1] := rfl
  refine ⟨h, ?_⟩
  rw [h, List.pairwise_cons]
  intro hp
  have := hp.1 1 (by simp)
  omega

/-- C5 (amended): every point surviving normalization has a non-`null` open
and close (the filter drops exactly the points with a `null` close or open),
and `lastUpdated` is the time of the last retained point, `null` when none
is retained; the retained `timestamps` are ascending whenever the upstream
timestamp array is ascending — the filter preserves order but the code never
sorts, so ascending order of the result is conditional on the upstream. -/
theorem claim_C5 (symbol : String) (res : RawResult) :
    (∀ item ∈ (buildSeries symbol res).ohlc,
        item.o ≠ JsVal.null ∧ item.c ≠ JsVal.null)
    ∧ (List.Pairwise (· ≤ ·) (res.timestamp.getD []) →
        List.Pairwise (· ≤ ·) (buildSeries symbol res).timestamps)
    ∧ ((buildSeries symbol res).ohlc = [] →
        (buildSeries symbol res).lastUpdated = none)
    ∧ (∀ item, (buildSeries symbol res).ohlc.getLast? = some item →
        (buildSeries symbol res).lastUpdated = some item.time) := by
  refine ⟨?_, ?_, ?_, ?_⟩
  · intro item hitem
    simp only [buildSeries] at hitem
    unfold validData at hitem
    have hp := List.of_mem_filter hitem
    simp only [Bool.and_eq_true, Bool.not_eq_true', beq_eq_false_iff_ne, ne_eq] at hp
    exact ⟨hp.2, hp.1⟩
  · intro hpw
    simp only [buildSeries]
    exact List.Pairwise.sublist
      (validData_map_time_sublist (res.timestamp.getD []) (res.quote.open_.getD [])
        (res.quote.high.getD []) (res.quote.low.getD []) (res.quote.close.getD []))
      hpw
  · intro hnil
    simp only [buildSeries] at hnil ⊢
    rw [hnil]
    simp
  · intro item hlast
    simp only [buildSeries] at hlast ⊢
    have hlen : 0 < (validData (res.timestamp.getD []) (res.quote.open_.getD [])
        (res.quote.high.getD []) (res.quote.low.getD [])
        (res.quote.close.getD [])).length := by
      rcases hvd : validData (res.timestamp.getD []) (res.quote.open_.getD [])
          (res.quote.high.getD []) (res.quote.low.getD [])
          (res.quote.close.getD []) with _ | ⟨a, tl⟩
      · rw [hvd] at hlast
        simp at hlast
      · simp
    rw [if_pos hlen, hlast]
    rfl

/-- Witness for C5 (amended): an ascending upstream document with one
`null`-open point dropped yields ascending timestamps `[10, 20]` and
`lastUpdated = 20`. -/
theorem claim_C5_witness :
    List.Pairwise (· ≤ ·)
      (buildSeries "AAPL"
        ⟨some [10, 20, 30],
         ⟨some [JsVal.num 1, JsVal.num 1, JsVal.null],
          some [JsVal.null, JsVal.null, JsVal.null],
          some [JsVal.null, JsVal.null, JsVal.null],
          some [JsVal.num 2, JsVal.num 2, JsVal.num 2]⟩,
         ⟨1, 1, none, none⟩⟩).timestamps
    ∧ (buildSeries "AAPL"
        ⟨some [10, 20, 30],
         ⟨some [JsVal.num 1, JsVal.num 1, JsVal.null],
          some [JsVal.null, JsVal.null, JsVal.null],
          some [JsVal.null, JsVal.null, JsVal.null],
          some [JsVal.num 2, JsVal.num 2, JsVal.num 2]⟩,
         ⟨1, 1, none, none⟩⟩).lastUpdated = some 20 := by
  constructor
  · refine (claim_C5 "AAPL" _).2.1 ?_
    simp only [Option.getD_some]
    rw [List.pairwise_cons]
    refine ⟨?_, ?_⟩
    · intro b hb
      simp at hb
      rcases hb with h | h <;> omega
    · rw [List.pairwise_cons]
      exact ⟨fun b hb => by simp at hb; omega, by simp⟩
  · exact (claim_C5 "AAPL" _).2.2.2
      ⟨20, JsVal.num 1, JsVal.null, JsVal.null, JsVal.num 2⟩ rfl

/-- C10: the normalization filter tests only `open` and `close`; a point
whose open and close are non-`null` is retained whatever its high and low
(including `null`), and the candlestick projection hands the renderer the
item with its `h` and `l` fields carried over verbatim (so possibly
`null`). -/
theorem claim_C10 (symbol : String) (res : RawResult) (i : Nat)
    (hi : i < (res.timestamp.getD []).length)
    (hc : jsIndex (res.quote.close.getD []) i ≠ JsVal.null)
    (ho : jsIndex (res.quote.open_.getD []) i ≠ JsVal.null) :
    ({ time := (res.timestamp.getD []).get ⟨i, hi⟩,
       o := jsIndex (res.quote.open_.getD []) i,
       h := jsIndex (res.quote.high.getD []) i,
       l := jsIndex (res.quote.low.getD []) i,
       c := jsIndex (res.quote.close.getD []) i } : OhlcItem)
        ∈ (buildSeries symbol res).ohlc
    ∧ ({ x := (res.timestamp.getD []).get ⟨i, hi⟩ * 1000,
         o := jsIndex (res.quote.open_.getD []) i,
         h := jsIndex (res.quote.high.getD []) i,
         l := jsIndex (res.quote.low.getD []) i,
         c := jsIndex (res.quote.close.getD []) i } : CandleItem)
        ∈ ohlcData (buildSeries symbol res) := by
  have hmem : ({ time := (res.timestamp.getD []).get ⟨i, hi⟩,
                 o := jsIndex (res.quote.open_.getD []) i,
                 h := jsIndex (res.quote.high.getD []) i,
                 l := jsIndex (res.quote.low.getD []) i,
                 c := jsIndex (res.quote.close.getD []) i } : OhlcItem)
        ∈ (buildSeries symbol res).ohlc := by
    simp only [buildSeries]
    unfold validData
    apply List.mem_filter.mpr
    constructor
    · have hb : i < (res.timestamp.getD []).enum.length := by
        simpa [List.enum_length] using hi
      have hg : (res.timestamp.getD []).enum.get ⟨i, hb⟩
          = (i, (res.timestamp.getD []).get ⟨i, hi⟩) := by
        rw [List.get_eq_getElem, List.getElem_enum]
        exact rfl
      refine List.mem_map.mpr
        ⟨(i, (res.timestamp.getD []).get ⟨i, hi⟩), ?_, rfl⟩
      rw [← hg]
      exact List.get_mem _ _ hb
    · simp only [Bool.and_eq_true, Bool.not_eq_true', beq_eq_false_iff_ne, ne_eq]
      exact ⟨hc, ho⟩
  refine ⟨hmem, ?_⟩
  unfold ohlcData
  exact List.mem_map.mpr ⟨_, hmem, rfl⟩

/-- Witness for C10: a point with `null` high and low but numeric open and
close is retained and projected for the candlestick renderer with `null`
`h`/`l`. -/
theorem claim_C10_witness :
    ({ time := 5, o := JsVal.num 1, h := JsVal.null, l := JsVal.null,
       c := JsVal.num 2 } : OhlcItem)
        ∈ (buildSeries "AAPL"
            ⟨some [5],
             ⟨some [JsVal.num 1], some [JsVal.null], some [JsVal.null],
              some [JsVal.num 2]⟩,
             ⟨1, 1, none, none⟩⟩).ohlc
    ∧ ({ x := 5000, o := JsVal.num 1, h := JsVal.null, l := JsVal.null,
         c := JsVal.num 2 } : CandleItem)
        ∈ ohlcData (buildSeries "AAPL"
            ⟨some [5],
             ⟨some [JsVal.num 1], some [JsVal.null], some [JsVal.null],
              some [JsVal.num 2]⟩,
             ⟨1, 1, none, none⟩⟩) := by
  have h := claim_C10 "AAPL"
    ⟨some [5],
     ⟨some [JsVal.num 1], some [JsVal.null], some [JsVal.null],
      some [JsVal.num 2]⟩,
     ⟨1, 1, none, none⟩⟩ 0 (by simp) (by simp [jsIndex]) (by simp [jsIndex])
  exact h

/-! ## Properties of the slot state machines -/

lemma handleSearch_cached (st : SearchState)
    (rangeArg intervalArg chartTypeArg : Option String)
    (inputValue suffix : String) (fetchResult : Option Series)
    (d : CachedSearch)
    (hcache : st.lastFetchedData = some d)
    (hsym : d.symbol = resolveSymbol inputValue suffix st.currentSearchSymbol)
    (hne : d.symbol ≠ "")
    (hrange : d.range = rangeArg.getD "5y")
    (hinterval : d.interval = intervalArg.getD "1mo") :
    (handleSearch st rangeArg intervalArg chartTypeArg inputValue suffix
        fetchResult).fetches = 0
    ∧ (handleSearch st rangeArg intervalArg chartTypeArg inputValue suffix
        fetchResult).state.lastFetchedData = some d
    ∧ (handleSearch st rangeArg intervalArg chartTypeArg inputValue suffix
        fetchResult).rendered
        = some (d.data, (handleSearch st rangeArg intervalArg chartTypeArg
            inputValue suffix fetchResult).state.currentChartType) := by
  have hsf : shouldFetchNewData (some d) d.symbol
      (rangeArg.getD "5y") (intervalArg.getD "1mo") = false := by
    rw [← hrange, ← hinterval]
    simp [shouldFetchNewData]
  simp only [handleSearch, ← hsym]
  cases chartTypeArg with
  | none =>
    rw [if_neg hne]
    simp [hsf, hcache]
  | some t =>
    by_cases ht : t = ""
    · simp only [ht]
      rw [if_neg hne]
      simp [hsf, hcache]
    · simp only [if_neg ht]
      rw [if_neg hne]
      simp [hsf, hcache]

lemma handleSearch_fetch (st : SearchState)
    (rangeArg intervalArg chartTypeArg : Option String)
    (inputValue suffix : String) (fetchResult : Option Series)
    (hne : resolveSymbol inputValue suffix st.currentSearchSymbol ≠ "")
    (hsf : shouldFetchNewData st.lastFetchedData
        (resolveSymbol inputValue suffix st.currentSearchSymbol)
        (rangeArg.getD "5y") (intervalArg.getD "1mo") = true) :
    (handleSearch st rangeArg intervalArg chartTypeArg inputValue suffix
        fetchResult).fetches = 1 := by
  simp only [handleSearch]
  cases chartTypeArg with
  | none =>
    rw [if_neg hne]
    cases fetchResult with
    | none => simp [hsf]
    | some data =>
      by_cases hp : data.prices = [] <;> simp [hsf, hp]
  | some t =>
    by_cases ht : t = ""
    · simp only [ht]
      rw [if_neg hne]
      cases fetchResult with
      | none => simp [hsf]
      | some data =>
        by_cases hp : data.prices = [] <;> simp [hsf, hp]
    · simp only [if_neg ht]
      rw [if_neg hne]
      cases fetchResult with
      | none => simp [hsf]
      | some data =>
        by_cases hp : data.prices = [] <;> simp [hsf, hp]

lemma searchChartTypeState (st : SearchState) (chartTypeArg : Option String) :
    (match chartTypeArg with
      | some t => if t = "" then st else { st with currentChartType := t }
      | none => st).lastFetchedData = st.lastFetchedData := by
  cases chartTypeArg with
  | none => rfl
  | some t =>
    dsimp only
    split <;> rfl

lemma handleSearch_none_cache (st : SearchState)
    (rangeArg intervalArg chartTypeArg : Option String)
    (inputValue suffix : String) :
    (handleSearch st rangeArg intervalArg chartTypeArg inputValue suffix
        none).state.lastFetchedData = st.lastFetchedData := by
  simp only [handleSearch]
  by_cases hsym : resolveSymbol inputValue suffix st.currentSearchSymbol = ""
  · simp [hsym, searchChartTypeState]
  · rw [if_neg hsym]
    by_cases hsf : shouldFetchNewData st.lastFetchedData
        (resolveSymbol inputValue suffix st.currentSearchSymbol)
        (rangeArg.getD "5y") (intervalArg.getD "1mo") = true
    · simp [searchChartTypeState, hsf]
    · simp only [Bool.not_eq_true] at hsf
      simp only [searchChartTypeState]
      rcases hld : st.lastFetchedData with _ | d
      · rw [hld] at hsf
        simp [shouldFetchNewData] at hsf
      · rw [hld] at hsf
        simp [hsf]

lemma handleChartUpdateIndex_cached (st : IndexState)
    (range interval ty : Option String) (fetchResult : Option Series)
    (d : Series) (hr : jsTruthy range = false) (hd : st.lastData = some d) :
    (handleChartUpdateIndex st range interval ty fetchResult).fetches = 0
    ∧ (handleChartUpdateIndex st range interval ty fetchResult).state.lastData
        = some d
    ∧ (handleChartUpdateIndex st range interval ty fetchResult).state.range
        = st.range
    ∧ (handleChartUpdateIndex st range interval ty fetchResult).state.interval
        = st.interval
    ∧ (handleChartUpdateIndex st range interval ty fetchResult).state.symbol
        = st.symbol
    ∧ (handleChartUpdateIndex st range interval ty fetchResult).rendered
        = some (d,
            (handleChartUpdateIndex st range interval ty
              fetchResult).state.type') := by
  cases ty with
  | none => simp [handleChartUpdateIndex, hr, hd]
  | some t =>
    by_cases ht : t = "" <;> simp [handleChartUpdateIndex, hr, hd, ht]

lemma handleChartUpdateIndex_range_fetch (st : IndexState)
    (range interval ty : Option String) (fetchResult : Option Series)
    (hr : jsTruthy range = true) :
    (handleChartUpdateIndex st range interval ty fetchResult).fetches = 1 := by
  cases ty with
  | none => cases fetchResult <;> simp [handleChartUpdateIndex, hr]
  | some t =>
    by_cases ht : t = "" <;> cases fetchResult <;>
      simp [handleChartUpdateIndex, hr, ht]

lemma handleChartUpdateIndex_nocache_fetch (st : IndexState)
    (range interval ty : Option String) (fetchResult : Option Series)
    (hr : jsTruthy range = false) (hd : st.lastData = none) :
    (handleChartUpdateIndex st range interval ty fetchResult).fetches = 1 := by
  cases ty with
  | none => cases fetchResult <;> simp [handleChartUpdateIndex, hr, hd]
  | some t =>
    by_cases ht : t = "" <;> cases fetchResult <;>
      simp [handleChartUpdateIndex, hr, hd, ht]

lemma handleChartUpdateIndex_none_cache (st : IndexState)
    (range interval ty : Option String) :
    (handleChartUpdateIndex st range interval ty none).state.lastData
      = st.lastData := by
  cases ty with
  | none =>
    cases hjr : jsTruthy range <;>
      rcases hld : st.lastData with _ | d <;>
        simp [handleChartUpdateIndex, hjr, hld]
  | some t =>
    by_cases ht : t = "" <;>
      cases hjr : jsTruthy range <;>
        rcases hld : st.lastData with _ | d <;>
          simp [handleChartUpdateIndex, hjr, ht, hld]

/-- A concrete cached series used by the counterexamples and witnesses. -/
def sampleSeries : Series :=
  { ohlc := [⟨100, JsVal.num 1, JsVal.num 2, JsVal.num 1, JsVal.num 2⟩]
    prices := [JsVal.num 2]
    timestamps := [100]
    currentPrice := 2
    prevClose := 1
    lastUpdated := some 100
    name := "KOSPI" }

/-- A fixed index slot holding `sampleSeries` fetched with range `5y`,
interval `1mo`. -/
def kospiState : IndexState :=
  { symbol := "^KS11", range := some "5y", interval := some "1mo",
    type' := "candlestick", lastData := some sampleSeries }

/-- A search-slot cache entry for symbol `AAPL`, range `5y`, interval
`1mo`. -/
def sampleCached : CachedSearch :=
  { data := sampleSeries, symbol := "AAPL", range := "5y", interval := "1mo" }

/-- A search state holding `sampleCached`. -/
def sampleSearchState : SearchState :=
  { currentSearchSymbol := "AAPL", currentChartType := "candlestick",
    lastFetchedData := some sampleCached }

/-- C1 counterexample: a fixed index slot already caching a series fetched
with range `5y` / interval `1mo` receives an update carrying those identical
params (`handleChartUpdate(id, '5y', '1mo', null)`); the claim says no fetch
is issued, but the code fetches whenever a truthy range argument is present —
one fetch happens. -/
theorem claim_C1_cex :
    kospiState.lastData = some sampleSeries
    ∧ kospiState.range = some "5y"
    ∧ kospiState.interval = some "1mo"
    ∧ (handleChartUpdateIndex kospiState (some "5y") (some "1mo") none
        (some sampleSeries)).fetches = 1 :=
  ⟨rfl, rfl, rfl, rfl⟩

/-- C1 (amended): for the search slot the claim holds as stated — a request
whose resolved symbol, range and interval all equal the cached params issues
no fetch and renders the cached series, and a non-matching request (per
`shouldFetchNewData`) fetches once.  For fixed index slots the cache test is
instead the presence of a (truthy) range argument: no range and a cached
series reuse the cache, any truthy range fetches even when identical to the
cached params, and no range with an empty cache also fetches. -/
theorem claim_C1 :
    (∀ (st : SearchState) (rangeArg intervalArg chartTypeArg : Option String)
        (inputValue suffix : String) (fetchResult : Option Series)
        (d : CachedSearch),
      st.lastFetchedData = some d →
      d.symbol = resolveSymbol inputValue suffix st.currentSearchSymbol →
      d.symbol ≠ "" →
      d.range = rangeArg.getD "5y" →
      d.interval = intervalArg.getD "1mo" →
      (handleSearch st rangeArg intervalArg chartTypeArg inputValue suffix
          fetchResult).fetches = 0
      ∧ (handleSearch st rangeArg intervalArg chartTypeArg inputValue suffix
          fetchResult).rendered
          = some (d.data, (handleSearch st rangeArg intervalArg chartTypeArg
              inputValue suffix fetchResult).state.currentChartType))
    ∧ (∀ (st : SearchState) (rangeArg intervalArg chartTypeArg : Option String)
        (inputValue suffix : String) (fetchResult : Option Series),
      resolveSymbol inputValue suffix st.currentSearchSymbol ≠ "" →
      shouldFetchNewData st.lastFetchedData
        (resolveSymbol inputValue suffix st.currentSearchSymbol)
        (rangeArg.getD "5y") (intervalArg.getD "1mo") = true →
      (handleSearch st rangeArg intervalArg chartTypeArg inputValue suffix
          fetchResult).fetches = 1)
    ∧ (∀ (st : IndexState) (range interval ty : Option String)
        (fetchResult : Option Series) (d : Series),
      jsTruthy range = false → st.lastData = some d →
      (handleChartUpdateIndex st range interval ty fetchResult).fetches = 0
      ∧ (handleChartUpdateIndex st range interval ty fetchResult).rendered
          = some (d, (handleChartUpdateIndex st range interval ty
              fetchResult).state.type'))
    ∧ (∀ (st : IndexState) (range interval ty : Option String)
        (fetchResult : Option Series),
      jsTruthy range = true →
      (handleChartUpdateIndex st range interval ty fetchResult).fetches = 1)
    ∧ (∀ (st : IndexState) (range interval ty : Option String)
        (fetchResult : Option Series),
      jsTruthy range = false → st.lastData = none →
      (handleChartUpdateIndex st range interval ty fetchResult).fetches = 1) := by
  refine ⟨?_, ?_, ?_, ?_, ?_⟩
  · intro st rangeArg intervalArg chartTypeArg inputValue suffix fetchResult d
      hcache hsym hne hrange hinterval
    obtain ⟨h1, _, h3⟩ := handleSearch_cached st rangeArg intervalArg
      chartTypeArg inputValue suffix fetchResult d hcache hsym hne hrange
      hinterval
    exact ⟨h1, h3⟩
  · intro st rangeArg intervalArg chartTypeArg inputValue suffix fetchResult
      hne hsf
    exact handleSearch_fetch st rangeArg intervalArg chartTypeArg inputValue
      suffix fetchResult hne hsf
  · intro st range interval ty fetchResult d hr hd
    obtain ⟨h1, _, _, _, _, h6⟩ := handleChartUpdateIndex_cached st range
      interval ty fetchResult d hr hd
    exact ⟨h1, h6⟩
  · intro st range interval ty fetchResult hr
    exact handleChartUpdateIndex_range_fetch st range interval ty fetchResult hr
  · intro st range interval ty fetchResult hr hd
    exact handleChartUpdateIndex_nocache_fetch st range interval ty fetchResult
      hr hd

/-- Witness for C1 (amended): the cached search slot for `AAPL`/`5y`/`1mo`
answers a matching request with zero fetches, and a fixed slot receiving a
truthy range fetches once. -/
theorem claim_C1_witness :
    (handleSearch sampleSearchState (some "5y") (some "1mo") none "aapl" ""
        (some sampleSeries)).fetches = 0
    ∧ (handleChartUpdateIndex kospiState (some "1d") (some "5m") none
        none).fetches = 1 := by
  constructor
  · exact (claim_C1.1 sampleSearchState (some "5y") (some "1mo") none "aapl" ""
      (some sampleSeries) sampleCached rfl (by decide) (by decide) rfl rfl).1
  · exact claim_C1.2.2.2.1 kospiState (some "1d") (some "5m") none none rfl

/-- C6 counterexample: a mode-change request that also carries the slot's
current (unchanged) range and interval — within the claim's "absent or
unchanged" wording — still invokes the fetcher once on a fixed index slot,
because any truthy range argument triggers a fetch. -/
theorem claim_C6_cex :
    kospiState.lastData = some sampleSeries
    ∧ kospiState.range = some "5y"
    ∧ kospiState.interval = some "1mo"
    ∧ kospiState.type' = "candlestick"
    ∧ (handleChartUpdateIndex kospiState (some "5y") (some "1mo")
        (some "line") none).fetches = 1 :=
  ⟨rfl, rfl, rfl, rfl, rfl⟩

/-- C6 (amended): a mode-only update with the range and interval arguments
absent (as the type-toggle buttons send: `handleChartUpdate(id, null, null,
type)`) invokes the fetcher zero times, leaves the slot's params and cached
series unchanged, and rebuilds the view from the cached series with the new
mode.  For the search slot this extends to an unchanged range: the dispatch
fills the absent range/interval from the cache and `handleSearch` compares
them equal.  On fixed index slots, however, a request that carries the range
explicitly fetches even when it is unchanged (see the counterexample), so
"absent or unchanged" must read "absent" there. -/
theorem claim_C6 :
    (∀ (st : IndexState) (interval ty : Option String)
        (fetchResult : Option Series) (d : Series),
      st.lastData = some d →
      (handleChartUpdateIndex st none interval ty fetchResult).fetches = 0
      ∧ (handleChartUpdateIndex st none interval ty fetchResult).state.lastData
          = some d
      ∧ (handleChartUpdateIndex st none interval ty fetchResult).state.range
          = st.range
      ∧ (handleChartUpdateIndex st none interval ty
          fetchResult).state.interval = st.interval
      ∧ (handleChartUpdateIndex st none interval ty fetchResult).rendered
          = some (d, (handleChartUpdateIndex st none interval ty
              fetchResult).state.type'))
    ∧ (∀ (st : SearchState) (inputValue suffix : String) (ty : Option String)
        (fetchResult : Option Series) (d : CachedSearch),
      st.lastFetchedData = some d →
      d.symbol = resolveSymbol inputValue suffix st.currentSearchSymbol →
      d.symbol ≠ "" →
      (handleChartUpdateSearch st inputValue suffix none none ty
          fetchResult).fetches = 0
      ∧ (handleChartUpdateSearch st inputValue suffix none none ty
          fetchResult).state.lastFetchedData = some d
      ∧ (handleChartUpdateSearch st inputValue suffix none none ty
          fetchResult).rendered
          = some (d.data, (handleChartUpdateSearch st inputValue suffix none
              none ty fetchResult).state.currentChartType)) := by
  constructor
  · intro st interval ty fetchResult d hd
    obtain ⟨h1, h2, h3, h4, _, h6⟩ := handleChartUpdateIndex_cached st none
      interval ty fetchResult d rfl hd
    exact ⟨h1, h2, h3, h4, h6⟩
  · intro st inputValue suffix ty fetchResult d hcache hsym hne
    have heq : handleChartUpdateSearch st inputValue suffix none none ty
        fetchResult
        = handleSearch st (some d.range) (some d.interval) ty inputValue
            suffix fetchResult := by
      unfold handleChartUpdateSearch
      rw [hcache]
      rfl
    rw [heq]
    exact handleSearch_cached st (some d.range) (some d.interval) ty
      inputValue suffix fetchResult d hcache hsym hne rfl rfl

/-- Witness for C6 (amended): toggling `kospiState` to line mode with no
range argument performs zero fetches and re-renders the cached series, and
the cached search slot behaves the same under the search dispatch. -/
theorem claim_C6_witness :
    (handleChartUpdateIndex kospiState none none (some "line") none).fetches = 0
    ∧ (handleChartUpdateIndex kospiState none none (some "line") none).rendered
        = some (sampleSeries, "line")
    ∧ (handleChartUpdateSearch sampleSearchState "aapl" "" none none
        (some "line") none).fetches = 0 := by
  refine ⟨?_, ?_, ?_⟩
  · exact (claim_C6.1 kospiState none (some "line") none sampleSeries rfl).1
  · have h := (claim_C6.1 kospiState none (some "line") none sampleSeries
      rfl).2.2.2.2
    simpa using h
  · exact (claim_C6.2 sampleSearchState "aapl" "" (some "line") none
      sampleCached rfl (by decide) (by decide)).1

/-- C7: a failed fetch (the fetcher returns `null`) leaves the previously
cached series exactly as it was in every slot path: `updateIndexData`
returns before touching the slot, `handleSearch` returns from its catch
without assigning `lastFetchedData`, and both branches of
`handleChartUpdate` skip the cache assignment when the result is falsy. -/
theorem claim_C7 :
    (∀ st : IndexState, (updateIndexData st none).1.lastData = st.lastData)
    ∧ (∀ (st : SearchState) (rangeArg intervalArg chartTypeArg : Option String)
        (inputValue suffix : String),
      (handleSearch st rangeArg intervalArg chartTypeArg inputValue suffix
          none).state.lastFetchedData = st.lastFetchedData)
    ∧ (∀ (st : IndexState) (range interval ty : Option String),
      (handleChartUpdateIndex st range interval ty none).state.lastData
        = st.lastData)
    ∧ (∀ (st : SearchState) (inputValue suffix : String)
        (range interval ty : Option String),
      (handleChartUpdateSearch st inputValue suffix range interval ty
          none).state.lastFetchedData = st.lastFetchedData) := by
  refine ⟨fun st => rfl, ?_, ?_, ?_⟩
  · intro st rangeArg intervalArg chartTypeArg inputValue suffix
    exact handleSearch_none_cache st rangeArg intervalArg chartTypeArg
      inputValue suffix
  · intro st range interval ty
    exact handleChartUpdateIndex_none_cache st range interval ty
  · intro st inputValue suffix range interval ty
    exact handleSearch_none_cache st _ _ ty inputValue suffix
